import Mathlib

/-!
Shallow embedding of the `impl-display-for-vec` examples.

Each Rust file defines an `Album` record (title, artist) with a
`fmt::Display` implementation rendering it as title, a space, and the
artist in parentheses, and a wrapper around a vector of albums whose
`Display` folds `writeln!` over the records.  The formatter is modelled
as the string buffer accumulated so far; `fmt` maps a buffer to a
`fmt::Result` carrying the extended buffer (`Except Unit String`:
`.ok buf` is `Ok(())` with the formatter holding `buf`, `.error ()` is
`fmt::Error`).  Writing to a string buffer always succeeds, as in Rust.
References and clones are modelled by values, as usual for a pure
embedding of single-threaded read-only code.
-/

/-- The record type common to all six files: an immutable title/artist pair. -/
structure Album where
  title : String
  artist : String
deriving DecidableEq, Repr

/-- `impl fmt::Display for Album`: `write!(f, ..., self.title, self.artist)`
appends the title, a space, an opening parenthesis, the artist and a closing
parenthesis to the formatter buffer and returns `Ok(())`. -/
def Album.fmtOn (a : Album) (buf : String) : Except Unit String :=
  .ok (buf ++ a.title ++ " (" ++ a.artist ++ ")")

/-- The string an `Album` renders to (its `Display` output from an empty buffer). -/
def Album.render (a : Album) : String :=
  a.title ++ " (" ++ a.artist ++ ")"

/-- `writeln!(f, "...", album)`: format the album into the buffer, then append
the line terminator; succeeds whenever the album formatting succeeded. -/
def writelnAlbum (album : Album) (buf : String) : Except Unit String :=
  (album.fmtOn buf).bind (fun b => .ok (b ++ "\n"))

/-- The spec side of claim C1, stated from the spec words: the concatenation
of each record rendering followed by one line terminator, in sequence order;
the empty sequence gives the empty string. -/
def specRenderConcat : List Album → String
  | [] => ""
  | r :: rs => Album.render r ++ "\n" ++ specRenderConcat rs

namespace Newtype

/-- `newtype.rs`: `struct Albums(pub Vec<Album>)`, an owning newtype. -/
structure Albums where
  val : List Album
deriving DecidableEq, Repr

/-- `impl fmt::Display for Albums` in `newtype.rs`:
`self.0.iter().fold(Ok(()), |result, album| result.and_then(... writeln ...))`. -/
def Albums.fmtOn (as' : Albums) (buf : String) : Except Unit String :=
  as'.val.foldl (fun result album => result.bind (fun b => writelnAlbum album b))
    (.ok buf)

/-- The string the `Display` implementation produces from an empty formatter. -/
def Albums.render (as' : Albums) : String :=
  match as'.fmtOn "" with
  | .ok s => s
  | .error _ => ""

end Newtype

namespace Referencing

/-- `referencing.rs`: `struct Albums<'a>(pub &'a Vec<Album>)`; the borrowed
vector is modelled by its value. -/
structure Albums where
  val : List Album
deriving DecidableEq, Repr

/-- `impl<'a> fmt::Display for Albums<'a>` in `referencing.rs`: the same
`writeln!` fold over `self.0.iter()`. -/
def Albums.fmtOn (as' : Albums) (buf : String) : Except Unit String :=
  as'.val.foldl (fun result album => result.bind (fun b => writelnAlbum album b))
    (.ok buf)

/-- The string the `Display` implementation produces from an empty formatter. -/
def Albums.render (as' : Albums) : String :=
  match as'.fmtOn "" with
  | .ok s => s
  | .error _ => ""

/-- `referencing.rs`: `struct User { name: String, albums: Vec<Album> }`. -/
structure User where
  name : String
  albums : List Album
deriving DecidableEq, Repr

/-- `User::borrow_albums(&self) -> Albums`: wraps a reference to the owner
sequence; by value semantics the wrapper carries the sequence value. -/
def User.borrow_albums (u : User) : Albums :=
  Albums.mk u.albums

/-- A call of the `&self` accessor `borrow_albums`: the result paired with
the owner as it stands after the call (an immutable borrow leaves the
owner value intact). -/
def User.borrowCall (u : User) : Albums × User :=
  (u.borrow_albums, u)

/-- `n` successive calls of `borrow_albums` on an owner, threading the owner
through each call; returns the list of results and the final owner. -/
def User.borrowTrace : User → Nat → List Albums × User
  | u, 0 => ([], u)
  | u, n + 1 =>
      ((u.borrowCall).1 :: (User.borrowTrace (u.borrowCall).2 n).1,
        (User.borrowTrace (u.borrowCall).2 n).2)

end Referencing

namespace Dereferencing

/-- `dereferencing.rs`: `struct Albums(pub Vec<Album>)`, the transparent
wrapper. -/
structure Albums where
  val : List Album
deriving DecidableEq, Repr

/-- `impl ops::Deref for Albums`: `deref(&self) -> &Vec<Album>` returns
`&self.0`. -/
def Albums.deref (as' : Albums) : List Album :=
  as'.val

/-- `impl fmt::Display for Albums` in `dereferencing.rs`: the `writeln!` fold
over `self.iter()`, which resolves through `Deref` to the inner vector. -/
def Albums.fmtOn (as' : Albums) (buf : String) : Except Unit String :=
  as'.deref.foldl (fun result album => result.bind (fun b => writelnAlbum album b))
    (.ok buf)

/-- The string the `Display` implementation produces from an empty formatter. -/
def Albums.render (as' : Albums) : String :=
  match as'.fmtOn "" with
  | .ok s => s
  | .error _ => ""

/-- `dereferencing.rs`: `struct User { name: String, albums: Albums }`. -/
structure User where
  name : String
  albums : Albums
deriving DecidableEq, Repr

end Dereferencing

namespace OwnershipProblem

/-- `#[derive(Clone)] struct Album`  in `ownership-problem.rs`: the derived
clone copies each field (a deep, independent copy under value semantics). -/
def cloneAlbum (a : Album) : Album :=
  Album.mk a.title a.artist

/-- `ownership-problem.rs`: `struct Albums(pub Vec<Album>)`. -/
structure Albums where
  val : List Album
deriving DecidableEq, Repr

/-- `impl fmt::Display for Albums` in `ownership-problem.rs`: the same
`writeln!` fold over `self.0.iter()`. -/
def Albums.fmtOn (as' : Albums) (buf : String) : Except Unit String :=
  as'.val.foldl (fun result album => result.bind (fun b => writelnAlbum album b))
    (.ok buf)

/-- The string the `Display` implementation produces from an empty formatter. -/
def Albums.render (as' : Albums) : String :=
  match as'.fmtOn "" with
  | .ok s => s
  | .error _ => ""

/-- `ownership-problem.rs`: `struct User { name: String, albums: Vec<Album> }`. -/
structure User where
  name : String
  albums : List Album
deriving DecidableEq, Repr

/-- `User::into_album(self) -> Albums`: moves the sequence out of the owner. -/
def User.into_album (u : User) : Albums :=
  Albums.mk u.albums

/-- `User::get_albums(&self) -> Albums`: `Albums(self.albums.clone())`, a
`Vec` clone that clones every element. -/
def User.get_albums (u : User) : Albums :=
  Albums.mk (u.albums.map cloneAlbum)

/-- A call of the `&self` accessor `get_albums`: the result paired with the
owner as it stands after the call. -/
def User.getCall (u : User) : Albums × User :=
  (u.get_albums, u)

/-- `n` successive calls of `get_albums` on an owner, threading the owner
through each call. -/
def User.getTrace : User → Nat → List Albums × User
  | u, 0 => ([], u)
  | u, n + 1 =>
      ((u.getCall).1 :: (User.getTrace (u.getCall).2 n).1,
        (User.getTrace (u.getCall).2 n).2)

end OwnershipProblem

/-- The first record of the example scenario shared by the binaries. -/
def sgtPepper : Album :=
  Album.mk "Sgt. Pepper\x27s Lonely Hearts Club Band" "The Beatles"

/-- The second record of the example scenario shared by the binaries. -/
def darkSide : Album :=
  Album.mk "Dark Side of the Moon" "Pink Floyd"

namespace Referencing

/-- The `daniel` value built in `fn main` of `referencing.rs`. -/
def daniel : User :=
  User.mk "Daniel" [sgtPepper, darkSide]

/-- The standard output of `fn main` in `referencing.rs`:
`println!` of the header built from `daniel.name`, then `println!` of
`daniel.borrow_albums()`; each `println!` appends one line terminator to
what it formats. -/
def stdout : String :=
  daniel.name ++ "\x27s albums:" ++ "\n" ++ (daniel.borrow_albums).render ++ "\n"

end Referencing

namespace Dereferencing

/-- Model of Rust `str::to_uppercase` on the ASCII data of this program:
uppercase every character. -/
def toUppercase (s : String) : String :=
  String.mk (s.data.map Char.toUpper)

/-- The `daniel` value built in `fn main` of `dereferencing.rs`. -/
def daniel : User :=
  User.mk "Daniel" (Albums.mk [sgtPepper, darkSide])

/-- The upper-casing pass of `fn main` in `dereferencing.rs`:
`for_each(|album| println!("...", album.title.to_uppercase()))` over the
albums reached through `Deref`, one line per record, in order. -/
def upperPass : List Album → String
  | [] => ""
  | a :: rest => toUppercase a.title ++ "\n" ++ upperPass rest

/-- The standard output of `fn main` in `dereferencing.rs`: header,
collection rendering, then the upper-casing pass. -/
def stdout : String :=
  daniel.name ++ "\x27s albums:" ++ "\n" ++ (daniel.albums).render ++ "\n"
    ++ upperPass (daniel.albums).deref

end Dereferencing

/-- The `writeln!` fold shared by all four `Display for Albums` implementations
always succeeds and appends exactly the in-order concatenation of the album
renderings, each followed by a line terminator. -/
theorem writelnFold_ok (S : List Album) (buf : String) :
    S.foldl (fun result album => result.bind (fun b => writelnAlbum album b))
      (Except.ok buf)
      = (Except.ok (buf ++ specRenderConcat S) : Except Unit String) := by
  induction S generalizing buf with
  | nil => simp [specRenderConcat]
  | cons a t ih =>
      rw [List.foldl_cons]
      rw [show ((Except.ok buf : Except Unit String).bind fun b => writelnAlbum a b)
            = Except.ok (buf ++ a.title ++ " (" ++ a.artist ++ ")" ++ "\n") from rfl]
      rw [ih]
      simp [specRenderConcat, Album.render, String.append_assoc]

/-- C1 (helper form for newtype.rs): the rendered collection is the spec
concatenation. -/
theorem newtype_render_concat (S : List Album) :
    (Newtype.Albums.mk S).render = specRenderConcat S := by
  simp [Newtype.Albums.render, Newtype.Albums.fmtOn, writelnFold_ok]

/-- C1: for every finite sequence `S` of records, rendering the collection
equals the concatenation, in order, of each record rendering (title, space,
artist in parentheses) followed by one line terminator, and the empty
sequence renders to the empty string. -/
theorem newtype_render_eq_spec_concat (S : List Album) :
    (Newtype.Albums.mk S).render = specRenderConcat S
      ∧ (Newtype.Albums.mk []).render = "" := by
  exact ⟨newtype_render_concat S, newtype_render_concat []⟩

/-- C1 witness at a concrete two-record sequence. -/
theorem newtype_render_eq_spec_concat_witness :
    (Newtype.Albums.mk [⟨"a", "b"⟩, ⟨"c", "d"⟩]).render = specRenderConcat [⟨"a", "b"⟩, ⟨"c", "d"⟩]
      ∧ (Newtype.Albums.mk []).render = "" :=
  newtype_render_eq_spec_concat [⟨"a", "b"⟩, ⟨"c", "d"⟩]

/-- The `referencing.rs` renderer also produces the spec concatenation. -/
theorem referencing_render_concat (S : List Album) :
    (Referencing.Albums.mk S).render = specRenderConcat S := by
  simp [Referencing.Albums.render, Referencing.Albums.fmtOn, writelnFold_ok]

/-- The `dereferencing.rs` renderer also produces the spec concatenation. -/
theorem dereferencing_render_concat (S : List Album) :
    (Dereferencing.Albums.mk S).render = specRenderConcat S := by
  simp [Dereferencing.Albums.render, Dereferencing.Albums.fmtOn,
    Dereferencing.Albums.deref, writelnFold_ok]

/-- The `ownership-problem.rs` renderer also produces the spec concatenation. -/
theorem ownership_render_concat (S : List Album) :
    (OwnershipProblem.Albums.mk S).render = specRenderConcat S := by
  simp [OwnershipProblem.Albums.render, OwnershipProblem.Albums.fmtOn, writelnFold_ok]

/-- C2: on any underlying sequence the Owned (newtype.rs), Borrowed
(referencing.rs), Transparent (dereferencing.rs) and Cloned
(ownership-problem.rs) wrappers render the same string: the four
renderers are pairwise equal as functions of the sequence. -/
theorem four_strategy_renders_agree (S : List Album) :
    (Referencing.Albums.mk S).render = (Newtype.Albums.mk S).render
      ∧ (Dereferencing.Albums.mk S).render = (Newtype.Albums.mk S).render
      ∧ (OwnershipProblem.Albums.mk S).render = (Newtype.Albums.mk S).render := by
  refine ⟨?_, ?_, ?_⟩ <;>
    rw [newtype_render_concat]
  · exact referencing_render_concat S
  · exact dereferencing_render_concat S
  · exact ownership_render_concat S

/-- C2 witness at the concrete two-record sequence of the examples. -/
theorem four_strategy_renders_agree_witness :
    (Referencing.Albums.mk [sgtPepper, darkSide]).render
        = (Newtype.Albums.mk [sgtPepper, darkSide]).render
      ∧ (Dereferencing.Albums.mk [sgtPepper, darkSide]).render
        = (Newtype.Albums.mk [sgtPepper, darkSide]).render
      ∧ (OwnershipProblem.Albums.mk [sgtPepper, darkSide]).render
        = (Newtype.Albums.mk [sgtPepper, darkSide]).render :=
  four_strategy_renders_agree [sgtPepper, darkSide]

/-- C3: for every sequence `S` (the empty one included) the `Deref` wrapper
of dereferencing.rs delegates transparently: same length, same emptiness
test, the same optional lookup at every index, and the same element at
every valid index. -/
theorem dereferencing_transparent_delegation (S : List Album) :
    (Dereferencing.Albums.mk S).deref.length = S.length
      ∧ (Dereferencing.Albums.mk S).deref.isEmpty = S.isEmpty
      ∧ (∀ j : Nat, (Dereferencing.Albums.mk S).deref[j]? = S[j]?)
      ∧ ∀ i : Nat, ∀ h : i < S.length,
          (Dereferencing.Albums.mk S).deref.get ⟨i, h⟩ = S.get ⟨i, h⟩ :=
  ⟨rfl, rfl, fun _ => rfl, fun _ _ => rfl⟩

/-- C3 witness: a concrete one-record sequence with index 0 discharged, and
the emptiness test on the concrete empty sequence. -/
theorem dereferencing_transparent_delegation_witness :
    (Dereferencing.Albums.mk [sgtPepper]).deref.length = [sgtPepper].length
      ∧ (Dereferencing.Albums.mk [sgtPepper]).deref.isEmpty = [sgtPepper].isEmpty
      ∧ (Dereferencing.Albums.mk [sgtPepper]).deref[0]? = [sgtPepper][0]?
      ∧ (Dereferencing.Albums.mk [sgtPepper]).deref.get ⟨0, by decide⟩
          = [sgtPepper].get ⟨0, by decide⟩
      ∧ (Dereferencing.Albums.mk ([] : List Album)).deref.isEmpty
          = ([] : List Album).isEmpty :=
  ⟨(dereferencing_transparent_delegation [sgtPepper]).1,
    (dereferencing_transparent_delegation [sgtPepper]).2.1,
    (dereferencing_transparent_delegation [sgtPepper]).2.2.1 0,
    (dereferencing_transparent_delegation [sgtPepper]).2.2.2 0 (by decide),
    (dereferencing_transparent_delegation ([] : List Album)).2.1⟩

/-- The derived clone of an `Album` copies both fields, so it equals the
original record as a value. -/
theorem cloneAlbum_eq (a : Album) : OwnershipProblem.cloneAlbum a = a :=
  rfl

/-- A `Vec` clone (element-wise `Album` clone) reproduces the sequence. -/
theorem map_cloneAlbum (S : List Album) :
    S.map OwnershipProblem.cloneAlbum = S := by
  induction S with
  | nil => rfl
  | cons a t ih => simp [ih, cloneAlbum_eq]

/-- C4: `get_albums` hands out an element-wise clone of the owner sequence:
the clone equals the snapshot taken at call time, its rendering is the
rendering of that snapshot, and a clone taken after the owner sequence has
been replaced by `newAlbums` renders `newAlbums` — the snapshot rendering
mentions only the sequence at its own call time, so later changes to (or
destruction of) the owner value cannot affect it, nor vice versa. -/
theorem get_albums_clone_independent (u : OwnershipProblem.User)
    (newAlbums : List Album) :
    (u.get_albums).val = u.albums.map OwnershipProblem.cloneAlbum
      ∧ (u.get_albums).render = (OwnershipProblem.Albums.mk u.albums).render
      ∧ ((OwnershipProblem.User.mk u.name newAlbums).get_albums).render
          = (OwnershipProblem.Albums.mk newAlbums).render := by
  refine ⟨rfl, ?_, ?_⟩ <;> simp [OwnershipProblem.User.get_albums, map_cloneAlbum]

/-- C4 witness at a concrete owner whose sequence is later emptied. -/
theorem get_albums_clone_independent_witness :
    ((OwnershipProblem.User.mk "Daniel" [sgtPepper]).get_albums).val
        = [sgtPepper].map OwnershipProblem.cloneAlbum
      ∧ ((OwnershipProblem.User.mk "Daniel" [sgtPepper]).get_albums).render
        = (OwnershipProblem.Albums.mk [sgtPepper]).render
      ∧ ((OwnershipProblem.User.mk "Daniel" []).get_albums).render
        = (OwnershipProblem.Albums.mk []).render :=
  get_albums_clone_independent (OwnershipProblem.User.mk "Daniel" [sgtPepper]) []

/-- Repeated `borrow_albums` calls: every call returns the same wrapper and
the owner value is unchanged at the end. -/
theorem borrowTrace_spec (u : Referencing.User) (n : Nat) :
    Referencing.User.borrowTrace u n = (List.replicate n u.borrow_albums, u) := by
  induction n with
  | zero => rfl
  | succ n ih =>
      simp [Referencing.User.borrowTrace, Referencing.User.borrowCall, ih,
        List.replicate]

/-- Repeated `get_albums` calls: every call returns the same wrapper and the
owner value is unchanged at the end. -/
theorem getTrace_spec (v : OwnershipProblem.User) (n : Nat) :
    OwnershipProblem.User.getTrace v n = (List.replicate n v.get_albums, v) := by
  induction n with
  | zero => rfl
  | succ n ih =>
      simp [OwnershipProblem.User.getTrace, OwnershipProblem.User.getCall, ih,
        List.replicate]

/-- C6: `borrow_albums` and `get_albums` can be called any number of times;
each sequence of calls leaves the owner value (name and albums) unchanged,
all calls return the same result, and rendering a returned realization
twice yields the same output both times. -/
theorem read_accessors_pure_idempotent (u : Referencing.User)
    (v : OwnershipProblem.User) (n : Nat) :
    (Referencing.User.borrowTrace u n).2 = u
      ∧ (Referencing.User.borrowTrace u n).1 = List.replicate n u.borrow_albums
      ∧ (OwnershipProblem.User.getTrace v n).2 = v
      ∧ (OwnershipProblem.User.getTrace v n).1 = List.replicate n v.get_albums
      ∧ (u.borrow_albums).render = (u.borrow_albums).render
      ∧ (v.get_albums).render = (v.get_albums).render := by
  refine ⟨?_, ?_, ?_, ?_, rfl, rfl⟩ <;> simp [borrowTrace_spec, getTrace_spec]

/-- C6 witness: three repeated calls on concrete owners. -/
theorem read_accessors_pure_idempotent_witness :
    (Referencing.User.borrowTrace (Referencing.User.mk "Daniel" [sgtPepper]) 3).2
        = Referencing.User.mk "Daniel" [sgtPepper]
      ∧ (Referencing.User.borrowTrace (Referencing.User.mk "Daniel" [sgtPepper]) 3).1
        = List.replicate 3 (Referencing.User.mk "Daniel" [sgtPepper]).borrow_albums
      ∧ (OwnershipProblem.User.getTrace (OwnershipProblem.User.mk "Daniel" [darkSide]) 3).2
        = OwnershipProblem.User.mk "Daniel" [darkSide]
      ∧ (OwnershipProblem.User.getTrace (OwnershipProblem.User.mk "Daniel" [darkSide]) 3).1
        = List.replicate 3 (OwnershipProblem.User.mk "Daniel" [darkSide]).get_albums
      ∧ ((Referencing.User.mk "Daniel" [sgtPepper]).borrow_albums).render
        = ((Referencing.User.mk "Daniel" [sgtPepper]).borrow_albums).render
      ∧ ((OwnershipProblem.User.mk "Daniel" [darkSide]).get_albums).render
        = ((OwnershipProblem.User.mk "Daniel" [darkSide]).get_albums).render :=
  read_accessors_pure_idempotent (Referencing.User.mk "Daniel" [sgtPepper])
    (OwnershipProblem.User.mk "Daniel" [darkSide]) 3

/-- C7: every record formatting and every collection formatting returns
`Ok` on every input and buffer, and every wrapper construction (owned
newtype, borrow, move, clone, transparent wrap) is total and preserves the
sequence it is given. -/
theorem render_and_constructions_total (a : Album) (S : List Album)
    (buf nm : String) :
    (a.fmtOn buf).isOk = true
      ∧ ((Newtype.Albums.mk S).fmtOn buf).isOk = true
      ∧ ((Referencing.Albums.mk S).fmtOn buf).isOk = true
      ∧ ((Dereferencing.Albums.mk S).fmtOn buf).isOk = true
      ∧ ((OwnershipProblem.Albums.mk S).fmtOn buf).isOk = true
      ∧ (Newtype.Albums.mk S).val = S
      ∧ ((Referencing.User.mk nm S).borrow_albums).val = S
      ∧ ((OwnershipProblem.User.mk nm S).into_album).val = S
      ∧ ((OwnershipProblem.User.mk nm S).get_albums).val = S
      ∧ (Dereferencing.Albums.mk S).deref = S := by
  refine ⟨rfl, ?_, ?_, ?_, ?_, rfl, rfl, rfl, ?_, rfl⟩
  · simp [Newtype.Albums.fmtOn, writelnFold_ok, Except.isOk, Except.toBool]
  · simp [Referencing.Albums.fmtOn, writelnFold_ok, Except.isOk, Except.toBool]
  · simp [Dereferencing.Albums.fmtOn, Dereferencing.Albums.deref, writelnFold_ok,
      Except.isOk, Except.toBool]
  · simp [OwnershipProblem.Albums.fmtOn, writelnFold_ok, Except.isOk, Except.toBool]
  · simp [OwnershipProblem.User.get_albums, map_cloneAlbum]

/-- C7 witness at concrete inputs. -/
theorem render_and_constructions_total_witness :
    (sgtPepper.fmtOn "x").isOk = true
      ∧ ((Newtype.Albums.mk [sgtPepper]).fmtOn "x").isOk = true
      ∧ ((Referencing.Albums.mk [sgtPepper]).fmtOn "x").isOk = true
      ∧ ((Dereferencing.Albums.mk [sgtPepper]).fmtOn "x").isOk = true
      ∧ ((OwnershipProblem.Albums.mk [sgtPepper]).fmtOn "x").isOk = true
      ∧ (Newtype.Albums.mk [sgtPepper]).val = [sgtPepper]
      ∧ ((Referencing.User.mk "Daniel" [sgtPepper]).borrow_albums).val = [sgtPepper]
      ∧ ((OwnershipProblem.User.mk "Daniel" [sgtPepper]).into_album).val = [sgtPepper]
      ∧ ((OwnershipProblem.User.mk "Daniel" [sgtPepper]).get_albums).val = [sgtPepper]
      ∧ (Dereferencing.Albums.mk [sgtPepper]).deref = [sgtPepper] :=
  render_and_constructions_total sgtPepper [sgtPepper] "x" "Daniel"

/-- C8 counterexample: the standard output of `referencing.rs` is not the
header followed by exactly the two record lines — `println!` appends a
newline to the collection rendering, which already ends in one, so the
output carries a final empty line. -/
theorem referencing_stdout_has_extra_blank_line :
    Referencing.stdout
      ≠ "Daniel\x27s albums:\n"
          ++ "Sgt. Pepper\x27s Lonely Hearts Club Band (The Beatles)\n"
          ++ "Dark Side of the Moon (Pink Floyd)\n" := by
  decide

/-- C8 amended: the standard output of `referencing.rs` is the header line,
the two record lines in order, and one trailing empty line. -/
theorem referencing_stdout_value :
    Referencing.stdout
      = "Daniel\x27s albums:\n"
          ++ "Sgt. Pepper\x27s Lonely Hearts Club Band (The Beatles)\n"
          ++ "Dark Side of the Moon (Pink Floyd)\n"
          ++ "\n" := by
  decide

/-- C9: the upper-casing pass of `dereferencing.rs` prints the two titles
upper-cased, one per line, in the original sequence order. -/
theorem dereferencing_uppercase_pass :
    Dereferencing.upperPass (Dereferencing.daniel.albums).deref
      = "SGT. PEPPER\x27S LONELY HEARTS CLUB BAND\n"
          ++ "DARK SIDE OF THE MOON\n"
      ∧ ((Dereferencing.daniel.albums).deref).map
            (fun a => Dereferencing.toUppercase a.title)
          = ["SGT. PEPPER\x27S LONELY HEARTS CLUB BAND",
              "DARK SIDE OF THE MOON"] := by
  exact ⟨by decide, by decide⟩

/-- C10: the rendering obtained through `borrow_albums` or `get_albums`
depends only on the album sequence, never on the owner name. -/
theorem render_independent_of_owner_name (n₁ n₂ : String) (S : List Album) :
    ((Referencing.User.mk n₁ S).borrow_albums).render
        = ((Referencing.User.mk n₂ S).borrow_albums).render
      ∧ ((OwnershipProblem.User.mk n₁ S).get_albums).render
        = ((OwnershipProblem.User.mk n₂ S).get_albums).render :=
  ⟨rfl, rfl⟩

/-- C10 witness: two differently named owners with the same albums. -/
theorem render_independent_of_owner_name_witness :
    ((Referencing.User.mk "Alice" [sgtPepper]).borrow_albums).render
        = ((Referencing.User.mk "Bob" [sgtPepper]).borrow_albums).render
      ∧ ((OwnershipProblem.User.mk "Alice" [sgtPepper]).get_albums).render
        = ((OwnershipProblem.User.mk "Bob" [sgtPepper]).get_albums).render :=
  render_independent_of_owner_name "Alice" "Bob" [sgtPepper]
